import Mathlib

/-!
Verification of the native-extension registration stub in `src/init.cpp`
of the `thoth` repository. The file defines a shallow embedding of the
routine table `CallEntries` and the load hook `R_init_toth`, together
with a model of the host interpreter's registration facility
(`R_registerRoutines`, `R_useDynamicSymbols`) and its symbol-resolution
behaviour, and proves the spec's claims about them.
-/

/-- A native function pointer, modelled as an opaque address; `none`
models the C `NULL` pointer. -/
abbrev FunPtr := Option Nat

/-- `R_CallMethodDef`: one `.Call` routine descriptor
`{name, function pointer, argument count}`; the all-`NULL` record is the
table sentinel. -/
structure R_CallMethodDef where
  name : Option String
  fn : FunPtr
  numArgs : Int
  deriving DecidableEq, Repr

/-- The all-null sentinel descriptor `{NULL, NULL, 0}`. -/
def nullCallMethodDef : R_CallMethodDef := { name := none, fn := none, numArgs := 0 }

/-- `R_CMethodDef`: descriptor for a `.C` routine (none occur in this
library; the hook passes `NULL` for this table). -/
structure R_CMethodDef where
  name : Option String
  fn : FunPtr
  numArgs : Int
  deriving DecidableEq, Repr

/-- `R_FortranMethodDef`: descriptor for a `.Fortran` routine (none occur
in this library; the hook passes `NULL` for this table). -/
structure R_FortranMethodDef where
  name : Option String
  fn : FunPtr
  numArgs : Int
  deriving DecidableEq, Repr

/-- `R_ExternalMethodDef`: descriptor for an `.External` routine (none
occur in this library; the hook passes `NULL` for this table). -/
structure R_ExternalMethodDef where
  name : Option String
  fn : FunPtr
  numArgs : Int
  deriving DecidableEq, Repr

/-- The static constant table from `src/init.cpp`:
`static const R_CallMethodDef CallEntries[] = {{NULL, NULL, 0}};` —
a single entry, the all-null sentinel. -/
def CallEntries : List R_CallMethodDef := [{ name := none, fn := none, numArgs := 0 }]

/-- An opaque library handle (`DllInfo *`), as supplied by the host. -/
abbrev DllInfo := Nat

/-- One call made by the library into the host's dynamic-loading API:
either `R_registerRoutines(dll, cRoutines, callRoutines, fortranRoutines,
externalRoutines)` or `R_useDynamicSymbols(dll, flag)`. -/
inductive HostCall where
  | registerRoutines (dll : DllInfo) (cRoutines : Option (List R_CMethodDef))
      (callRoutines : Option (List R_CallMethodDef))
      (fortranRoutines : Option (List R_FortranMethodDef))
      (externalRoutines : Option (List R_ExternalMethodDef))
  | useDynamicSymbols (dll : DllInfo) (flag : Bool)
  deriving DecidableEq, Repr

/-- The load hook `R_init_toth` from `src/init.cpp`, embedded as the
sequence of host-API calls it performs, in program order:
`R_registerRoutines(dll, NULL, CallEntries, NULL, NULL);` then
`R_useDynamicSymbols(dll, FALSE);`. -/
def R_init_toth (dll : DllInfo) : List HostCall :=
  [HostCall.registerRoutines dll none (some CallEntries) none none,
   HostCall.useDynamicSymbols dll false]

/-- Modelled from the spec: the registration state the host keeps for a
loaded library — one table per routine kind, plus the boolean
"allow dynamic symbol lookup" policy flag (which the host defaults to
allowing). The host itself is not part of this repository's sources. -/
structure LibRegistration where
  callRoutines : List R_CallMethodDef
  cRoutines : List R_CMethodDef
  fortranRoutines : List R_FortranMethodDef
  externalRoutines : List R_ExternalMethodDef
  useDynSymbols : Bool
  deriving DecidableEq, Repr

/-- A freshly loaded library: nothing registered, dynamic lookup allowed. -/
def freshLib : LibRegistration :=
  { callRoutines := [], cRoutines := [], fortranRoutines := [],
    externalRoutines := [], useDynSymbols := true }

/-- Modelled from the spec: host-global interpreter state — per-library
registration records keyed by library handle, plus a component standing
for all host state unrelated to native-routine registration. -/
structure HostState where
  libs : DllInfo → LibRegistration
  unrelated : Nat

/-- A host state in which no library has registered anything. -/
def initialHost : HostState := { libs := fun _ => freshLib, unrelated := 0 }

/-- The entries of a descriptor table up to (excluding) the first
null-named record: the host walks the table until it hits the sentinel. -/
def activeEntries (t : List R_CallMethodDef) : List R_CallMethodDef :=
  t.takeWhile (fun e => e.name.isSome)

/-- The exported names appearing in a registered `.Call` table. -/
def entryNames (t : List R_CallMethodDef) : List String :=
  t.filterMap (fun e => e.name)

/-- Whether a list of names contains a duplicate. -/
def hasDuplicateNames : List String → Bool
  | [] => false
  | x :: xs => xs.contains x || hasDuplicateNames xs

/-- Modelled from the spec: the failure the host's registration facility
can report when it rejects a table (e.g. duplicate names); this component
itself generates no errors. -/
inductive HostError where
  | duplicateNames
  deriving DecidableEq, Repr

/-- Replace one library's registration record in the host state. -/
def setLib (s : HostState) (dll : DllInfo) (r : LibRegistration) : HostState :=
  { s with libs := fun d => if d = dll then r else s.libs d }

/-- Modelled from the spec (continued): the registration record installed
by a successful `registerRoutines` call — each supplied table is
installed, a `NULL` table registers no routines of that kind, and the
library's dynamic-lookup flag is left as it was. -/
def installTables (old : LibRegistration) (c : Option (List R_CMethodDef))
    (call : List R_CallMethodDef) (f : Option (List R_FortranMethodDef))
    (ex : Option (List R_ExternalMethodDef)) : LibRegistration :=
  { callRoutines := call,
    cRoutines := c.getD [],
    fortranRoutines := f.getD [],
    externalRoutines := ex.getD [],
    useDynSymbols := old.useDynSymbols }

/-- Modelled from the spec: the host's handling of one API call.
`registerRoutines` installs each supplied table for the given library,
rejecting a `.Call` table with duplicate names; `useDynamicSymbols` sets
the library's dynamic-lookup policy flag. -/
def hostStep (s : HostState) : HostCall → Except HostError HostState
  | HostCall.registerRoutines dll c call f ex =>
      let newCall := (call.map activeEntries).getD []
      if hasDuplicateNames (entryNames newCall) then
        Except.error HostError.duplicateNames
      else
        Except.ok (setLib s dll (installTables (s.libs dll) c newCall f ex))
  | HostCall.useDynamicSymbols dll flag =>
      Except.ok (setLib s dll { s.libs dll with useDynSymbols := flag })

/-- Run a sequence of host-API calls, stopping at the first host error. -/
def hostRun (s : HostState) : List HostCall → Except HostError HostState
  | [] => Except.ok s
  | c :: cs =>
      match hostStep s c with
      | Except.ok s' => hostRun s' cs
      | Except.error e => Except.error e

/-- The host state after the load hook has run on a library handle
(the hook's run always succeeds; on a host error the state is unchanged). -/
def afterInit (s : HostState) (dll : DllInfo) : HostState :=
  match hostRun s (R_init_toth dll) with
  | Except.ok s' => s'
  | Except.error _ => s

/-- Outcome of asking the host to resolve a routine name. -/
inductive LookupOutcome where
  | found (fn : Nat)
  | notFound
  deriving DecidableEq, Repr

/-- Modelled from the spec: host resolution of a `.Call` routine name for
a library: the registered table is consulted first; an unregistered name
falls back to the linker symbol table (`linkerSyms`) only when the
library's dynamic-lookup flag is set, and otherwise fails as not found. -/
def resolveCall (linkerSyms : String → Option Nat) (s : HostState)
    (dll : DllInfo) (nm : String) : LookupOutcome :=
  match (s.libs dll).callRoutines.find? (fun e => e.name == some nm) with
  | some e =>
      match e.fn with
      | some p => LookupOutcome.found p
      | none => LookupOutcome.notFound
  | none =>
      if (s.libs dll).useDynSymbols then
        match linkerSyms nm with
        | some p => LookupOutcome.found p
        | none => LookupOutcome.notFound
      else LookupOutcome.notFound

/-- Signature classes of symbols exported by the shared library; the load
hook has the host-mandated shape `(DllInfo *) -> void`. -/
inductive SymbolSig where
  | loadHook
  deriving DecidableEq, Repr

/-- The symbols `src/init.cpp` exports with C linkage: `CallEntries` is
declared `static` (internal linkage), so the only exported symbol is the
function `R_init_toth`, of load-hook signature. -/
def exportedSymbols : List (String × SymbolSig) :=
  [("R_init_toth", SymbolSig.loadHook)]

/-- Modelled from the spec: the host-mandated, fixed load-hook name for a
shared library — the host looks up `R_init_` followed by the library's
name and invokes it at load time. The library's name is build metadata
(package name) absent from `src/`. -/
def mandatedHookName (libname : String) : String := "R_init_" ++ libname

/-- The library's name: the repository/package is named `thoth`, so the
shared object the host loads is `thoth`, not `toth`. -/
def libraryName : String := "thoth"

/-- Is a host call a registration call? -/
def HostCall.isRegister : HostCall → Bool
  | HostCall.registerRoutines _ _ _ _ _ => true
  | _ => false

/-- Is a host call a dynamic-lookup-policy call? -/
def HostCall.isSetDynFlag : HostCall → Bool
  | HostCall.useDynamicSymbols _ _ => true
  | _ => false

/-- The library handle a host call passes to the host. -/
def HostCall.handle : HostCall → DllInfo
  | HostCall.registerRoutines dll _ _ _ _ => dll
  | HostCall.useDynamicSymbols dll _ => dll

/-- A host call's arguments other than the library handle. -/
inductive CallPayload where
  | registration (c : Option (List R_CMethodDef))
      (call : Option (List R_CallMethodDef))
      (f : Option (List R_FortranMethodDef))
      (ex : Option (List R_ExternalMethodDef))
  | dynFlag (b : Bool)
  deriving DecidableEq, Repr

/-- Extract a host call's handle-independent payload. -/
def HostCall.payload : HostCall → CallPayload
  | HostCall.registerRoutines _ c call f ex => CallPayload.registration c call f ex
  | HostCall.useDynamicSymbols _ b => CallPayload.dynFlag b

/-- The full argument tuple of a registration call, when the call is one. -/
def registerArgs : HostCall →
    Option (DllInfo × Option (List R_CMethodDef) × Option (List R_CallMethodDef) ×
      Option (List R_FortranMethodDef) × Option (List R_ExternalMethodDef))
  | HostCall.registerRoutines dll c call f ex => some (dll, c, call, f, ex)
  | HostCall.useDynamicSymbols _ _ => none

/-! ### Helper lemmas about one run of the load hook -/

/-- Running the hook's two host calls always succeeds, and yields the
state in which the library's `.Call` table is the (empty) active part of
`CallEntries`, the other tables are empty, and dynamic lookup is off. -/
theorem hostRun_R_init (s : HostState) (dll : DllInfo) :
    hostRun s (R_init_toth dll) = Except.ok (afterInit s dll) := rfl

theorem afterInit_libs_self (s : HostState) (dll : DllInfo) :
    (afterInit s dll).libs dll =
      { callRoutines := [], cRoutines := [], fortranRoutines := [],
        externalRoutines := [], useDynSymbols := false } := by
  simp [afterInit, R_init_toth, hostRun, hostStep, setLib, installTables,
    activeEntries, entryNames, hasDuplicateNames, CallEntries]

theorem afterInit_libs_other (s : HostState) (dll d : DllInfo) (h : d ≠ dll) :
    (afterInit s dll).libs d = s.libs d := by
  simp [afterInit, R_init_toth, hostRun, hostStep, setLib, installTables,
    activeEntries, entryNames, hasDuplicateNames, CallEntries, if_neg h]

theorem afterInit_unrelated (s : HostState) (dll : DllInfo) :
    (afterInit s dll).unrelated = s.unrelated := rfl

/-! ### Claim theorems -/

/-- C1: for the current build the routine table contains no routine
descriptors, so after the initialization hook runs on any host state and
any library handle, the set of native routines callable by name from the
host is exactly the empty set: the registered name set is empty and every
name resolution (under any linker symbol table) fails. -/
theorem routine_table_registers_no_callables (s : HostState) (dll : DllInfo)
    (linkerSyms : String → Option Nat) (nm : String) :
    entryNames ((afterInit s dll).libs dll).callRoutines = [] ∧
    resolveCall linkerSyms (afterInit s dll) dll nm = LookupOutcome.notFound := by
  have h := afterInit_libs_self s dll
  refine ⟨?_, ?_⟩
  · rw [h]
    rfl
  · simp [resolveCall, h]

/-- C2 (code bug): the library exports exactly one symbol, of load-hook
signature, but its name is `R_init_toth`, while the name the host's
extension ABI mandates for this library (named `thoth`) is
`R_init_thoth`; hence no exported symbol bears the mandated name and the
host's loader will not find and invoke the hook. -/
theorem exported_hook_name_mismatch :
    exportedSymbols.map Prod.fst = ["R_init_toth"] ∧
    exportedSymbols.all (fun p => decide (p.2 = SymbolSig.loadHook)) = true ∧
    mandatedHookName libraryName = "R_init_thoth" ∧
    exportedSymbols.all (fun p => decide (p.1 ≠ mandatedHookName libraryName)) = true := by
  decide

/-- C3: in the routine table `CallEntries`, the last element is the
all-null sentinel descriptor, and no all-null descriptor appears at any
position before the last. -/
theorem callEntries_sentinel_terminated :
    CallEntries.getLast? = some nullCallMethodDef ∧
    CallEntries.dropLast.all (fun e => decide (e ≠ nullCallMethodDef)) = true := by
  decide

/-- C4: for every library handle, in the hook's sequence of host calls a
registration call occurs, a lookup-policy call occurs, and the (first)
registration call strictly precedes the (first) lookup-policy call. -/
theorem register_precedes_dynamic_symbol_policy (dll : DllInfo) :
    (R_init_toth dll).findIdx HostCall.isRegister <
      (R_init_toth dll).findIdx HostCall.isSetDynFlag ∧
    (R_init_toth dll).any HostCall.isRegister = true ∧
    (R_init_toth dll).any HostCall.isSetDynFlag = true := by
  refine ⟨?_, rfl, rfl⟩
  show (0 : Nat) < 1
  exact Nat.zero_lt_one

/-- C5: after the hook runs, the library's "allow dynamic symbol lookup"
flag is false, resolving any name not present in the registered table
fails as not found regardless of the linker symbol table, and — the table
being empty — resolving any name at all fails as not found. -/
theorem dynamic_lookup_disabled_after_init (s : HostState) (dll : DllInfo)
    (linkerSyms : String → Option Nat) :
    ((afterInit s dll).libs dll).useDynSymbols = false ∧
    (∀ nm : String, nm ∉ entryNames ((afterInit s dll).libs dll).callRoutines →
      resolveCall linkerSyms (afterInit s dll) dll nm = LookupOutcome.notFound) ∧
    (∀ nm : String,
      resolveCall linkerSyms (afterInit s dll) dll nm = LookupOutcome.notFound) := by
  have h := afterInit_libs_self s dll
  refine ⟨by rw [h], ?_, ?_⟩
  · intro nm _
    simp [resolveCall, h]
  · intro nm
    simp [resolveCall, h]

theorem dynamic_lookup_disabled_after_init_witness :
    ((afterInit initialHost 0).libs 0).useDynSymbols = false ∧
    resolveCall (fun _ => some 7) (afterInit initialHost 0) 0 "anyName" =
      LookupOutcome.notFound := by
  have h := dynamic_lookup_disabled_after_init initialHost 0 (fun _ => some 7)
  exact ⟨h.1, h.2.1 "anyName" (by decide)⟩

/-- C6: the hook makes exactly one registration call, and its arguments
are the received library handle, the routine table `CallEntries` in the
`.Call` position, and null for every other routine-table argument. -/
theorem registration_call_arguments (dll : DllInfo) :
    (R_init_toth dll).filterMap registerArgs =
      [(dll, none, some CallEntries, none, none)] := rfl

/-- C7: for every host state and every library handle, running the
initialization hook raises no error: the host run of its calls always
succeeds (the empty active table cannot be rejected), so no error
condition is surfaced by this component. -/
theorem init_hook_never_errors (s : HostState) (dll : DllInfo) :
    ∃ s', hostRun s (R_init_toth dll) = Except.ok s' := ⟨afterInit s dll, rfl⟩

/-- C8: per load the hook performs exactly one registration call and
exactly one lookup-policy call, and its only effect on the host state is
on the loaded library's own registration record: host state unrelated to
registration and the records of every other library are unchanged. -/
theorem init_side_effects_scoped (s : HostState) (dll : DllInfo) :
    (R_init_toth dll).countP HostCall.isRegister = 1 ∧
    (R_init_toth dll).countP HostCall.isSetDynFlag = 1 ∧
    (afterInit s dll).unrelated = s.unrelated ∧
    (∀ d : DllInfo, d ≠ dll → (afterInit s dll).libs d = s.libs d) := by
  refine ⟨rfl, rfl, afterInit_unrelated s dll, ?_⟩
  intro d hd
  exact afterInit_libs_other s dll d hd

theorem init_side_effects_scoped_witness :
    (afterInit initialHost 0).unrelated = initialHost.unrelated ∧
    (afterInit initialHost 0).libs 1 = initialHost.libs 1 := by
  have h := init_side_effects_scoped initialHost 0
  exact ⟨h.2.2.1, h.2.2.2 1 (by decide)⟩

/-- C9: every registration call the hook issues supplies only the
`.Call`-style table — which is sentinel-only, with no active entries —
while the `.C`, `.Fortran` and `.External` tables are all passed as null. -/
theorem only_call_table_supplied (dll : DllInfo)
    (c : Option (List R_CMethodDef)) (call : Option (List R_CallMethodDef))
    (f : Option (List R_FortranMethodDef)) (ex : Option (List R_ExternalMethodDef))
    (hmem : HostCall.registerRoutines dll c call f ex ∈ R_init_toth dll) :
    c = none ∧ f = none ∧ ex = none ∧ call = some CallEntries ∧
    activeEntries CallEntries = [] := by
  simp [R_init_toth] at hmem
  obtain ⟨hc, hcall, hf, hex⟩ := hmem
  subst hc; subst hcall; subst hf; subst hex
  exact ⟨rfl, rfl, rfl, rfl, rfl⟩

theorem only_call_table_supplied_witness :
    (none : Option (List R_CMethodDef)) = none ∧
    (none : Option (List R_FortranMethodDef)) = none ∧
    (none : Option (List R_ExternalMethodDef)) = none ∧
    some CallEntries = some CallEntries ∧ activeEntries CallEntries = [] :=
  only_call_table_supplied 0 none (some CallEntries) none none (by decide)

/-- C10: the hook is deterministic — its call sequence depends on nothing
but the received handle, the handle-independent payloads of its two calls
are the same for any two invocations, each of the two calls receives the
handle unchanged, and equal handles yield identical call sequences. -/
theorem init_hook_deterministic (d d' : DllInfo) :
    (R_init_toth d).map HostCall.payload = (R_init_toth d').map HostCall.payload ∧
    (R_init_toth d).map HostCall.handle = [d, d] ∧
    (d = d' → R_init_toth d = R_init_toth d') := by
  refine ⟨rfl, rfl, ?_⟩
  intro h
  rw [h]

theorem init_hook_deterministic_witness :
    (R_init_toth 0).map HostCall.payload = (R_init_toth 1).map HostCall.payload ∧
    R_init_toth 2 = R_init_toth 2 :=
  ⟨(init_hook_deterministic 0 1).1, (init_hook_deterministic 2 2).2.2 rfl⟩
